import Mathlib

/-!
Verification of the double-pendulum physics core of the AcceleratePhysicsLab
repository (`app.py` / `demo_physics.py`).

The simulator is embedded shallowly over the rational numbers.  The Python
code evaluates `np.sin` / `np.cos`; since those transcendental functions have
no executable counterpart over an exact number type, the embedding abstracts
them into a `Trig` record of two functions `ℚ → ℚ`.  Every algebraic fact
proved below holds for an arbitrary `Trig` instance (with explicitly stated
analytic hypotheses such as `sin 0 = 0` or oddness where a property needs
them), so in particular it holds for the mathematical sine and cosine.

The external ODE solver (`scipy.integrate.odeint`) is not part of the
repository; `simulate` is therefore parametrised by a `solver` function whose
interface contract — one output state per requested sample time — is taken as
a hypothesis where a property depends on it.
-/

namespace DoublePendulum

/-- Abstract interface for the trigonometric functions used by the simulator
(`np.sin`, `np.cos` in the source). -/
structure Trig where
  sin : ℚ → ℚ
  cos : ℚ → ℚ

/-- Physical configuration held by `DoublePendulumSimulator.__init__`:
masses `m1, m2`, rod lengths `L1, L2`, gravitational acceleration `g`. -/
structure Params where
  m1 : ℚ
  m2 : ℚ
  L1 : ℚ
  L2 : ℚ
  g : ℚ

/-- `DoublePendulumSimulator()` with every constructor argument left at its
default: `m1=m2=L1=L2=1.0`, `g=9.81`. -/
def defaultParams : Params := ⟨1, 1, 1, 1, 9.81⟩

/-- State vector `[theta1, omega1, theta2, omega2]`.  The same shape is used
for the derivative vector `[omega1, alpha1, omega2, alpha2]` returned by
`derivatives`, as in the source where both are 4-element lists. -/
structure StateVector where
  theta1 : ℚ
  omega1 : ℚ
  theta2 : ℚ
  omega2 : ℚ

/-- The numerical-stability threshold `epsilon = 1e-10` of `derivatives`. -/
def epsilon : ℚ := 1e-10

/-- `np.sign` on scalars: 1 for positive, -1 for negative, 0 for zero. -/
def npSign (x : ℚ) : ℚ := if 0 < x then 1 else if x < 0 then -1 else 0

/-- The denominator clamp from `derivatives` (app.py lines 60-61):
`den = den if abs(den) > epsilon else epsilon * np.sign(den) if den != 0 else epsilon`. -/
def clampDen (d : ℚ) : ℚ :=
  if |d| > epsilon then d else if d ≠ 0 then epsilon * npSign d else epsilon

/-- The raw (unclamped) first denominator of `derivatives`:
`den1 = (m1 + m2) * L1 - m2 * L1 * cos(delta)**2` with `delta = theta2 - theta1`. -/
def den1Raw (tr : Trig) (p : Params) (s : StateVector) : ℚ :=
  (p.m1 + p.m2) * p.L1 - p.m2 * p.L1 * tr.cos (s.theta2 - s.theta1) ^ 2

/-- The raw (unclamped) second denominator of `derivatives`:
`den2 = (L2 / L1) * den1`. -/
def den2Raw (tr : Trig) (p : Params) (s : StateVector) : ℚ :=
  (p.L2 / p.L1) * den1Raw tr p s

/-- `DoublePendulumSimulator.derivatives(state, t)` (app.py lines 36-82).
The time argument `t` is accepted, and ignored, exactly as in the source. -/
def derivatives (tr : Trig) (p : Params) (s : StateVector) (_t : ℚ) : StateVector :=
  let delta := s.theta2 - s.theta1
  let den1 := clampDen (den1Raw tr p s)
  let den2 := clampDen (den2Raw tr p s)
  let num1a := -p.m2 * p.L1 * s.omega1 ^ 2 * tr.sin delta * tr.cos delta
  let num1b := -p.m2 * p.g * tr.sin s.theta2 * tr.cos delta
  let num1c := -p.m2 * p.L2 * s.omega2 ^ 2 * tr.sin delta
  let num1d := -(p.m1 + p.m2) * p.g * tr.sin s.theta1
  let alpha1 := (num1a + num1b + num1c + num1d) / den1
  let num2a := p.m2 * p.L2 * s.omega2 ^ 2 * tr.sin delta * tr.cos delta
  let num2b := (p.m1 + p.m2) * p.g * tr.sin s.theta1 * tr.cos delta
  let num2c := (p.m1 + p.m2) * p.L1 * s.omega1 ^ 2 * tr.sin delta
  let num2d := -(p.m1 + p.m2) * p.g * tr.sin s.theta2
  let alpha2 := (num2a + num2b + num2c + num2d) / den2
  ⟨s.omega1, alpha1, s.omega2, alpha2⟩

/-- Per-sample total energy, the scalar body of
`DoublePendulumSimulator.calculate_energy` (app.py lines 128-154). -/
def energyAt (tr : Trig) (p : Params) (s : StateVector) : ℚ :=
  let v1_sq := (p.L1 * s.omega1) ^ 2
  let v2_sq := (p.L1 * s.omega1) ^ 2 + (p.L2 * s.omega2) ^ 2 +
      2 * p.L1 * p.L2 * s.omega1 * s.omega2 * tr.cos (s.theta1 - s.theta2)
  let T := 0.5 * p.m1 * v1_sq + 0.5 * p.m2 * v2_sq
  let y1 := -p.L1 * tr.cos s.theta1
  let y2 := -p.L1 * tr.cos s.theta1 - p.L2 * tr.cos s.theta2
  let V := p.m1 * p.g * y1 + p.m2 * p.g * y2
  T + V

/-- `DoublePendulumSimulator.calculate_energy(solution)`: the vectorised numpy
expression applied to every row of the solution array becomes a `List.map`. -/
def calculate_energy (tr : Trig) (p : Params) (solution : List StateVector) : List ℚ :=
  solution.map (energyAt tr p)

/-- `np.arange(0, duration, dt)` for a positive step `dt`: the sample times
`i * dt` for `i = 0, 1, ...` while `i * dt < duration`; its length is
`ceil(duration / dt)` (clamped to 0 when the quotient is non-positive). -/
def timeGrid (duration dt : ℚ) : List ℚ :=
  (List.range (⌈duration / dt⌉.toNat)).map (fun i : ℕ => (i : ℚ) * dt)

/-- The result dictionary assembled by `DoublePendulumSimulator.simulate`. -/
structure Trajectory where
  time : List ℚ
  theta1 : List ℚ
  theta2 : List ℚ
  x1 : List ℚ
  y1 : List ℚ
  x2 : List ℚ
  y2 : List ℚ
  energy : List ℚ
  dt : ℚ
  L1 : ℚ
  L2 : ℚ

/-- `DoublePendulumSimulator.simulate(initial_state, duration, dt)` (app.py
lines 84-126), parametrised by the external ODE solver (`odeint`), which maps
an initial state and a list of sample times to a list of sampled states.  The
vectorised numpy post-processing (`x1 = L1*np.sin(theta1)` and so on) becomes
elementwise maps over the solution rows.  Note there is no parameter
validation of any kind before integration. -/
def simulate (tr : Trig) (solver : StateVector → List ℚ → List StateVector)
    (p : Params) (initial : StateVector) (duration dt : ℚ) : Trajectory :=
  let t := timeGrid duration dt
  let solution := solver initial t
  let theta1 := solution.map (fun s => s.theta1)
  let theta2 := solution.map (fun s => s.theta2)
  let x1 := solution.map (fun s => p.L1 * tr.sin s.theta1)
  let y1 := solution.map (fun s => -p.L1 * tr.cos s.theta1)
  let x2 := solution.map (fun s => p.L1 * tr.sin s.theta1 + p.L2 * tr.sin s.theta2)
  let y2 := solution.map (fun s => -p.L1 * tr.cos s.theta1 - p.L2 * tr.cos s.theta2)
  ⟨t, theta1, theta2, x1, y1, x2, y2, calculate_energy tr p solution, dt, p.L1, p.L2⟩

/-- `math.radians(x)`, with the constant π abstracted as a parameter `pi`
(the embedding is over ℚ, which does not contain π itself). -/
def radians (pi x : ℚ) : ℚ := x * (pi / 180)

/-- `math.degrees(x)` with the same abstracted π. -/
def degrees (pi x : ℚ) : ℚ := x * (180 / pi)

/-- JSON body accepted by the `/api/simulate` endpoint.  Every field is
optional (`data.get(key, default)` in the source).  A `g` field is included
to model a request body that carries one: the endpoint never reads it. -/
structure SimRequest where
  theta1 : Option ℚ
  theta2 : Option ℚ
  omega1 : Option ℚ
  omega2 : Option ℚ
  m1 : Option ℚ
  m2 : Option ℚ
  L1 : Option ℚ
  L2 : Option ℚ
  duration : Option ℚ
  dt : Option ℚ
  g : Option ℚ

/-- Replace the `g` field of a request body, leaving all read fields alone. -/
def setG (req : SimRequest) (v : Option ℚ) : SimRequest :=
  ⟨req.theta1, req.theta2, req.omega1, req.omega2, req.m1, req.m2, req.L1,
    req.L2, req.duration, req.dt, v⟩

/-- The simulator construction performed by the `/api/simulate` endpoint
(app.py line 200): `DoublePendulumSimulator(m1=m1, m2=m2, L1=L1, L2=L2)` —
`g` is not passed, so the constructor default `9.81` applies. -/
def simulateEndpointParams (req : SimRequest) : Params :=
  ⟨req.m1.getD 1, req.m2.getD 1, req.L1.getD 1, req.L2.getD 1, 9.81⟩

/-- The `/api/simulate` endpoint body (app.py lines 182-203): parse the JSON
fields with their defaults (angles arrive in degrees and are converted to
radians), build the simulator, and run one simulation. -/
def simulateEndpoint (tr : Trig) (pi : ℚ)
    (solver : StateVector → List ℚ → List StateVector) (req : SimRequest) :
    Trajectory :=
  simulate tr solver (simulateEndpointParams req)
    ⟨radians pi (req.theta1.getD 90), req.omega1.getD 0,
      radians pi (req.theta2.getD 90), req.omega2.getD 0⟩
    (req.duration.getD 10) (req.dt.getD 0.01)

/-- JSON body accepted by the `/api/compare` endpoint. -/
structure CompareRequest where
  theta1 : Option ℚ
  theta2 : Option ℚ
  perturbation : Option ℚ
  m1 : Option ℚ
  m2 : Option ℚ
  L1 : Option ℚ
  L2 : Option ℚ
  duration : Option ℚ
  dt : Option ℚ

/-- One element of the `simulations` list returned by `/api/compare`:
`{'id': i, 'delta': math.degrees(delta), 'data': results}`. -/
structure CompareEntry where
  id : ℕ
  delta : ℚ
  data : Trajectory

/-- The `/api/compare` endpoint body (app.py lines 216-248): parse parameters,
build one simulator (again without passing `g`), then run three simulations
with `theta1` offsets `[0, perturbation, -perturbation]`, tagging each result
with its loop index and its offset converted back to degrees. -/
def compare_simulations (tr : Trig) (pi : ℚ)
    (solver : StateVector → List ℚ → List StateVector) (req : CompareRequest) :
    List CompareEntry :=
  let base_theta1 := radians pi (req.theta1.getD 90)
  let base_theta2 := radians pi (req.theta2.getD 90)
  let perturbation := radians pi (req.perturbation.getD 0.01)
  let p : Params := ⟨req.m1.getD 1, req.m2.getD 1, req.L1.getD 1, req.L2.getD 1, 9.81⟩
  let duration := req.duration.getD 10
  let dt := req.dt.getD 0.01
  (([0, perturbation, -perturbation] : List ℚ).enum).map (fun e =>
    ⟨e.1, degrees pi e.2,
      simulate tr solver p ⟨base_theta1 + e.2, 0, base_theta2, 0⟩ duration dt⟩)

/-- Componentwise negation of a state vector, used to phrase the sign-mirror
symmetry of the equations of motion. -/
def negState (s : StateVector) : StateVector :=
  ⟨-s.theta1, -s.omega1, -s.theta2, -s.omega2⟩

/-- A concrete degenerate trig model (`sin = 0`, `cos = 1`).  It satisfies
`sin 0 = 0`, oddness of `sin` and evenness of `cos`, and is used to
instantiate the universally quantified theorems at computable inputs. -/
def trigConst : Trig := ⟨fun _ => 0, fun _ => 1⟩

/-- A concrete solver obeying the `odeint` interface contract (one output row
per requested sample time): it holds the state constant. -/
def solverConst : StateVector → List ℚ → List StateVector :=
  fun y ts => ts.map (fun _ => y)

/-- A request body with every field absent, so every default applies. -/
def emptySimRequest : SimRequest :=
  ⟨none, none, none, none, none, none, none, none, none, none, none⟩

/-- A compare-request body with every field absent. -/
def emptyCompareRequest : CompareRequest :=
  ⟨none, none, none, none, none, none, none, none, none⟩

/-! ### Helper lemmas -/

lemma epsilon_pos : (0 : ℚ) < epsilon := by norm_num [epsilon]

lemma clampDen_of_gt (d : ℚ) (h : |d| > epsilon) : clampDen d = d := by
  simp [clampDen, h]

lemma clampDen_of_le (d : ℚ) (h1 : ¬ |d| > epsilon) (h2 : d ≠ 0) :
    clampDen d = epsilon * npSign d := by
  simp [clampDen, h1, h2]

lemma clampDen_zero : clampDen 0 = epsilon := by
  norm_num [clampDen, epsilon]

lemma npSign_of_pos (d : ℚ) (h : 0 < d) : npSign d = 1 := by
  simp [npSign, h]

lemma npSign_of_neg (d : ℚ) (h : d < 0) : npSign d = -1 := by
  have h' : ¬ (0 < d) := not_lt.2 h.le
  simp [npSign, h, h']

/-! ### Claim theorems -/

/-- Claim C2: each denominator of `derivatives` is clamped before division —
a denominator with `|den| > 1e-10` is used unchanged, a nonzero denominator
with `|den| ≤ 1e-10` becomes `1e-10 * sign(den)`, an exactly-zero denominator
becomes `+1e-10`; the clamped value always has absolute value at least
`1e-10`, hence is nonzero, so neither division divides by zero. -/
theorem clampDen_clamps (d : ℚ) :
    (|d| > epsilon → clampDen d = d) ∧
    (d ≠ 0 → |d| ≤ epsilon → clampDen d = epsilon * npSign d) ∧
    (d = 0 → clampDen d = epsilon) ∧
    epsilon ≤ |clampDen d| ∧ clampDen d ≠ 0 := by
  by_cases h1 : |d| > epsilon
  · have he : clampDen d = d := clampDen_of_gt d h1
    exact ⟨fun _ => he, fun _ h => absurd h1 (not_lt.2 h), fun h0 => by
        rw [h0, abs_zero] at h1; exact absurd h1 (not_lt.2 epsilon_pos.le),
      by rw [he]; exact h1.le,
      by rw [he]; intro h0; rw [h0, abs_zero] at h1
         exact absurd h1 (not_lt.2 epsilon_pos.le)⟩
  · by_cases h2 : d = 0
    · subst h2
      refine ⟨fun h => absurd h h1, fun h _ => absurd rfl h, fun _ => clampDen_zero, ?_, ?_⟩
      · rw [clampDen_zero, abs_of_pos epsilon_pos]
      · rw [clampDen_zero]; exact epsilon_pos.ne'
    · have he : clampDen d = epsilon * npSign d := clampDen_of_le d h1 h2
      have habs : |epsilon * npSign d| = epsilon := by
        rcases lt_or_gt_of_ne h2 with hneg | hpos
        · rw [npSign_of_neg d hneg]
          rw [mul_neg_one, abs_neg, abs_of_pos epsilon_pos]
        · rw [npSign_of_pos d hpos, mul_one, abs_of_pos epsilon_pos]
      refine ⟨fun h => absurd h h1, fun _ _ => he, fun h => absurd h h2, ?_, ?_⟩
      · rw [he, habs]
      · rw [he]; intro h0
        rw [h0, abs_zero] at habs
        exact absurd habs.symm epsilon_pos.ne'

-- Witness for C2: concrete evaluations of the three clamp branches.
theorem clampDen_clamps_witness :
    clampDen 0 = epsilon ∧
    clampDen (1 / 10 ^ 11) = epsilon * npSign (1 / 10 ^ 11) ∧
    epsilon ≤ |clampDen (1 / 10 ^ 11)| ∧
    clampDen 37 = 37 :=
  ⟨(clampDen_clamps 0).2.2.1 rfl,
    (clampDen_clamps (1 / 10 ^ 11)).2.1 (by norm_num)
      (by rw [show |(1 : ℚ) / 10 ^ 11| = 1 / 10 ^ 11 from abs_of_pos (by norm_num)]
          norm_num [epsilon]),
    (clampDen_clamps (1 / 10 ^ 11)).2.2.2.1,
    (clampDen_clamps 37).1 (by norm_num [epsilon])⟩

/-- Claim C5: the energy reported at a sample equals `T + V` with
`T = 0.5*m1*(L1*omega1)^2 + 0.5*m2*((L1*omega1)^2 + (L2*omega2)^2
+ 2*L1*L2*omega1*omega2*cos(theta1-theta2))` and
`V = m1*g*(-L1*cos theta1) + m2*g*(-L1*cos theta1 - L2*cos theta2)`. -/
theorem calculate_energy_formula (tr : Trig) (p : Params) (solution : List StateVector) :
    calculate_energy tr p solution = solution.map (fun s =>
      (0.5 * p.m1 * (p.L1 * s.omega1) ^ 2 +
        0.5 * p.m2 * ((p.L1 * s.omega1) ^ 2 + (p.L2 * s.omega2) ^ 2 +
          2 * p.L1 * p.L2 * s.omega1 * s.omega2 * tr.cos (s.theta1 - s.theta2))) +
      (p.m1 * p.g * (-p.L1 * tr.cos s.theta1) +
        p.m2 * p.g * (-p.L1 * tr.cos s.theta1 - p.L2 * tr.cos s.theta2))) := by
  rfl

/-- Claim C10: the `/api/simulate` endpoint always uses `g = 9.81`: it reads
no `g` field from the request body (changing that field changes nothing) and
the simulator constructor default applies. -/
theorem simulate_endpoint_g_fixed (tr : Trig) (pi : ℚ)
    (solver : StateVector → List ℚ → List StateVector) (req : SimRequest)
    (v : Option ℚ) :
    (simulateEndpointParams req).g = 9.81 ∧
    simulateEndpointParams (setG req v) = simulateEndpointParams req ∧
    simulateEndpoint tr pi solver (setG req v) = simulateEndpoint tr pi solver req :=
  ⟨rfl, rfl, rfl⟩

/-- Claim C6: the state `[0,0,0,0]` (both rods hanging straight down, at
rest) is a fixed point of the dynamics — `derivatives` evaluated there
returns the zero vector, for any parameters and any trig model with
`sin 0 = 0`. -/
theorem derivatives_equilibrium (tr : Trig) (p : Params) (t : ℚ)
    (hs : tr.sin 0 = 0) :
    derivatives tr p ⟨0, 0, 0, 0⟩ t = ⟨0, 0, 0, 0⟩ := by
  simp [derivatives, hs]

-- Witness for C6: the fixed point evaluated in the concrete trig model.
theorem derivatives_equilibrium_witness :
    derivatives trigConst defaultParams ⟨0, 0, 0, 0⟩ 0 = ⟨0, 0, 0, 0⟩ :=
  derivatives_equilibrium trigConst defaultParams 0 rfl

/-- Claim C1: whenever the raw denominators `den1 = (m1+m2)*L1 -
m2*L1*cos(delta)^2` and `den2 = (L2/L1)*den1` both exceed the clamp threshold
`1e-10` in absolute value, `derivatives` returns exactly
`[omega1, alpha1, omega2, alpha2]` with the Lagrangian accelerations
`alpha1`, `alpha2` as stated, divided by the unclamped denominators. -/
theorem derivatives_formula (tr : Trig) (p : Params) (s : StateVector) (t : ℚ)
    (h1 : |den1Raw tr p s| > epsilon) (h2 : |den2Raw tr p s| > epsilon) :
    derivatives tr p s t =
      ⟨s.omega1,
        (-p.m2 * p.L1 * s.omega1 ^ 2 * tr.sin (s.theta2 - s.theta1) *
            tr.cos (s.theta2 - s.theta1) +
          -p.m2 * p.g * tr.sin s.theta2 * tr.cos (s.theta2 - s.theta1) +
          -p.m2 * p.L2 * s.omega2 ^ 2 * tr.sin (s.theta2 - s.theta1) +
          -(p.m1 + p.m2) * p.g * tr.sin s.theta1) /
          ((p.m1 + p.m2) * p.L1 - p.m2 * p.L1 * tr.cos (s.theta2 - s.theta1) ^ 2),
        s.omega2,
        (p.m2 * p.L2 * s.omega2 ^ 2 * tr.sin (s.theta2 - s.theta1) *
            tr.cos (s.theta2 - s.theta1) +
          (p.m1 + p.m2) * p.g * tr.sin s.theta1 * tr.cos (s.theta2 - s.theta1) +
          (p.m1 + p.m2) * p.L1 * s.omega1 ^ 2 * tr.sin (s.theta2 - s.theta1) +
          -(p.m1 + p.m2) * p.g * tr.sin s.theta2) /
          ((p.L2 / p.L1) *
            ((p.m1 + p.m2) * p.L1 - p.m2 * p.L1 * tr.cos (s.theta2 - s.theta1) ^ 2))⟩ := by
  have e1 : clampDen (den1Raw tr p s) = den1Raw tr p s := clampDen_of_gt _ h1
  have e2 : clampDen (den2Raw tr p s) = den2Raw tr p s := clampDen_of_gt _ h2
  simp only [derivatives]
  rw [e1, e2]
  simp only [den1Raw, den2Raw]

-- Witness for C1: concrete state and parameters where both denominators are
-- safely above the threshold, so the formula applies (and evaluates to 0
-- accelerations in the degenerate trig model, whose sine is 0 everywhere).
theorem derivatives_formula_witness :
    derivatives trigConst defaultParams ⟨1, 2, 3, 4⟩ 0 = ⟨2, 0, 4, 0⟩ := by
  rw [derivatives_formula trigConst defaultParams ⟨1, 2, 3, 4⟩ 0
    (by norm_num [den1Raw, trigConst, defaultParams, epsilon])
    (by norm_num [den2Raw, den1Raw, trigConst, defaultParams, epsilon])]
  norm_num [trigConst, defaultParams]

/-- Claim C7: at the derivative level the double-pendulum dynamics are odd —
negating all four state components negates the returned derivative vector
componentwise (for any trig model with odd sine and even cosine, hence for
the mathematical sine and cosine, and any parameters, equal or not). -/
theorem derivatives_odd (tr : Trig) (p : Params) (s : StateVector) (t : ℚ)
    (_hm : p.m1 = p.m2) (_hL : p.L1 = p.L2)
    (hodd : ∀ x, tr.sin (-x) = -tr.sin x) (heven : ∀ x, tr.cos (-x) = tr.cos x) :
    derivatives tr p (negState s) t = negState (derivatives tr p s t) := by
  have hsub : -s.theta2 - -s.theta1 = -(s.theta2 - s.theta1) := by ring
  have hden1 : den1Raw tr p ⟨-s.theta1, -s.omega1, -s.theta2, -s.omega2⟩ =
      den1Raw tr p s := by
    simp only [den1Raw, hsub, heven]
  have hden2 : den2Raw tr p ⟨-s.theta1, -s.omega1, -s.theta2, -s.omega2⟩ =
      den2Raw tr p s := by
    simp only [den2Raw, hden1]
  simp only [derivatives, negState, hden1, hden2, hsub, hodd, heven,
    StateVector.mk.injEq]
  refine ⟨trivial, ?_, trivial, ?_⟩
  · rw [← neg_div]
    congr 1
    ring
  · rw [← neg_div]
    congr 1
    ring

-- Witness for C7: the symmetry applied at a concrete state in the degenerate
-- trig model (odd sine and even cosine hold there trivially).
theorem derivatives_odd_witness :
    derivatives trigConst defaultParams (negState ⟨1, 2, 3, 4⟩) 0 =
      negState (derivatives trigConst defaultParams ⟨1, 2, 3, 4⟩ 0) :=
  derivatives_odd trigConst defaultParams ⟨1, 2, 3, 4⟩ 0 rfl rfl
    (fun x => by simp [trigConst]) (fun x => by simp [trigConst])

/-- Claim C3 evidence: `simulate` performs no parameter validation and has no
error path at all — called with the invalid `duration = -1` it simply returns
a degenerate `Trajectory` (every sequence empty, `dt`, `L1`, `L2` echoed)
instead of raising any error before integration. -/
theorem simulate_no_validation :
    simulate trigConst solverConst defaultParams ⟨0, 0, 0, 0⟩ (-1) 0.01 =
      ⟨[], [], [], [], [], [], [], [], 0.01, 1, 1⟩ := by
  have hceil : (⌈(-1 : ℚ) / 0.01⌉).toNat = 0 := by
    rw [show (-1 : ℚ) / 0.01 = ((-100 : ℤ) : ℚ) from by norm_num, Int.ceil_intCast]
    decide
  have ht : timeGrid (-1) 0.01 = [] := by
    simp only [timeGrid, hceil, List.range_zero, List.map_nil]
  simp only [simulate, ht, solverConst, calculate_energy, List.map_nil, defaultParams]

/-- Claim C4 (amended): for `duration = D > 0` and `dt > 0`, and any solver
obeying the `odeint` interface contract (one output row per sample time), the
returned time sequence has length `ceil(D/dt)` (`np.arange` uses the ceiling,
not the floor, of `D/dt`), is nonempty, has `time[i] = i*dt` (so `time[0] =
0`), is strictly increasing with constant step `dt`, and every other
per-sample sequence has the same length. -/
theorem trajectory_shape (tr : Trig) (solver : StateVector → List ℚ → List StateVector)
    (p : Params) (s0 : StateVector) (D dt : ℚ) (hD : 0 < D) (hdt : 0 < dt)
    (hsol : ∀ y ts, (solver y ts).length = ts.length) :
    (simulate tr solver p s0 D dt).time.length = (⌈D / dt⌉).toNat ∧
    0 < (simulate tr solver p s0 D dt).time.length ∧
    (∀ i (h : i < (simulate tr solver p s0 D dt).time.length),
      (simulate tr solver p s0 D dt).time.get ⟨i, h⟩ = (i : ℚ) * dt) ∧
    (∀ h : 0 < (simulate tr solver p s0 D dt).time.length,
      (simulate tr solver p s0 D dt).time.get ⟨0, h⟩ = 0) ∧
    (∀ i (h : i + 1 < (simulate tr solver p s0 D dt).time.length),
      (simulate tr solver p s0 D dt).time.get ⟨i, Nat.lt_of_succ_lt h⟩ <
        (simulate tr solver p s0 D dt).time.get ⟨i + 1, h⟩) ∧
    (simulate tr solver p s0 D dt).theta1.length =
      (simulate tr solver p s0 D dt).time.length ∧
    (simulate tr solver p s0 D dt).theta2.length =
      (simulate tr solver p s0 D dt).time.length ∧
    (simulate tr solver p s0 D dt).x1.length =
      (simulate tr solver p s0 D dt).time.length ∧
    (simulate tr solver p s0 D dt).y1.length =
      (simulate tr solver p s0 D dt).time.length ∧
    (simulate tr solver p s0 D dt).x2.length =
      (simulate tr solver p s0 D dt).time.length ∧
    (simulate tr solver p s0 D dt).y2.length =
      (simulate tr solver p s0 D dt).time.length ∧
    (simulate tr solver p s0 D dt).energy.length =
      (simulate tr solver p s0 D dt).time.length := by
  have hlen : (simulate tr solver p s0 D dt).time.length = (⌈D / dt⌉).toNat := by
    simp only [simulate, timeGrid, List.length_map, List.length_range]
  have hget : ∀ i (h : i < (simulate tr solver p s0 D dt).time.length),
      (simulate tr solver p s0 D dt).time.get ⟨i, h⟩ = (i : ℚ) * dt := by
    intro i h
    simp only [simulate, timeGrid, List.get_eq_getElem, List.getElem_map,
      List.getElem_range]
  have hpos : 0 < (simulate tr solver p s0 D dt).time.length := by
    rw [hlen]
    have hceil : 0 < ⌈D / dt⌉ := Int.ceil_pos.mpr (div_pos hD hdt)
    omega
  refine ⟨hlen, hpos, hget, ?_, ?_, ?_, ?_, ?_, ?_, ?_, ?_, ?_⟩
  · intro h
    rw [hget 0 h]
    norm_num
  · intro i h
    rw [hget i (Nat.lt_of_succ_lt h), hget (i + 1) h]
    have hi : (i : ℚ) < (i : ℚ) + 1 := by norm_num
    have := mul_lt_mul_of_pos_right hi hdt
    push_cast
    linarith
  · simp only [simulate, List.length_map, hsol]
  · simp only [simulate, List.length_map, hsol]
  · simp only [simulate, List.length_map, hsol]
  · simp only [simulate, List.length_map, hsol]
  · simp only [simulate, List.length_map, hsol]
  · simp only [simulate, List.length_map, hsol]
  · simp only [simulate, calculate_energy, List.length_map, hsol]

-- Witness for C4: the default 10-second run at dt = 0.01 yields exactly 1000
-- samples.
theorem trajectory_shape_witness :
    (simulate trigConst solverConst defaultParams ⟨0, 0, 0, 0⟩ 10 0.01).time.length
      = 1000 := by
  have h := trajectory_shape trigConst solverConst defaultParams ⟨0, 0, 0, 0⟩ 10 0.01
    (by norm_num) (by norm_num) (fun y ts => by simp [solverConst])
  rw [h.1]
  have hc : (⌈(10 : ℚ) / 0.01⌉) = 1000 := by
    rw [show (10 : ℚ) / 0.01 = ((1000 : ℤ) : ℚ) from by norm_num, Int.ceil_intCast]
  rw [hc]
  decide

-- Counterexample to C4 as stated: with duration 1 and dt = 0.4 the time
-- sequence has ceil(1/0.4) = 3 samples, not floor(1/0.4) = 2.
theorem trajectory_length_not_floor :
    (simulate trigConst solverConst defaultParams ⟨0, 0, 0, 0⟩ 1 (2/5)).time.length ≠
      (⌊(1 : ℚ) / (2/5)⌋).toNat := by
  have h : (simulate trigConst solverConst defaultParams ⟨0, 0, 0, 0⟩ 1 (2/5)).time.length
      = (⌈(1 : ℚ) / (2/5)⌉).toNat := by
    simp only [simulate, timeGrid, List.length_map, List.length_range]
  have hc : (⌈(1 : ℚ) / (2/5)⌉) = 3 := by
    rw [Int.ceil_eq_iff]
    norm_num
  have hf : (⌊(1 : ℚ) / (2/5)⌋) = 2 := by
    rw [Int.floor_eq_iff]
    norm_num
  rw [h, hc, hf]
  decide

/-- Claim C8: `/api/compare` runs the Integration Driver exactly three times,
with `theta1` offsets `0`, `+perturbation`, `-perturbation` (perturbation
given in degrees, default 0.01, converted to radians) applied to the base
`theta1`, and returns the three trajectories tagged with indices `0, 1, 2`
and the offset converted back to degrees. -/
theorem compare_runs_three (tr : Trig) (pi : ℚ)
    (solver : StateVector → List ℚ → List StateVector) (req : CompareRequest)
    (hpi : pi ≠ 0) :
    compare_simulations tr pi solver req =
      [⟨0, 0,
          simulate tr solver
            ⟨req.m1.getD 1, req.m2.getD 1, req.L1.getD 1, req.L2.getD 1, 9.81⟩
            ⟨radians pi (req.theta1.getD 90), 0, radians pi (req.theta2.getD 90), 0⟩
            (req.duration.getD 10) (req.dt.getD 0.01)⟩,
        ⟨1, req.perturbation.getD 0.01,
          simulate tr solver
            ⟨req.m1.getD 1, req.m2.getD 1, req.L1.getD 1, req.L2.getD 1, 9.81⟩
            ⟨radians pi (req.theta1.getD 90) + radians pi (req.perturbation.getD 0.01),
              0, radians pi (req.theta2.getD 90), 0⟩
            (req.duration.getD 10) (req.dt.getD 0.01)⟩,
        ⟨2, -(req.perturbation.getD 0.01),
          simulate tr solver
            ⟨req.m1.getD 1, req.m2.getD 1, req.L1.getD 1, req.L2.getD 1, 9.81⟩
            ⟨radians pi (req.theta1.getD 90) - radians pi (req.perturbation.getD 0.01),
              0, radians pi (req.theta2.getD 90), 0⟩
            (req.duration.getD 10) (req.dt.getD 0.01)⟩] := by
  have hdeg0 : degrees pi 0 = 0 := by simp [degrees]
  have hdeg : ∀ x : ℚ, degrees pi (radians pi x) = x := by
    intro x
    field_simp [degrees, radians]
  have hdegneg : degrees pi (-(radians pi (req.perturbation.getD 0.01))) =
      -(req.perturbation.getD 0.01) := by
    rw [show degrees pi (-(radians pi (req.perturbation.getD 0.01))) =
        -(degrees pi (radians pi (req.perturbation.getD 0.01))) from by
      simp [degrees]]
    rw [hdeg]
  simp only [compare_simulations, List.enum, List.enumFrom, List.map_cons,
    List.map_nil, hdeg0, hdeg, hdegneg, add_zero, sub_eq_add_neg]

-- Witness for C8: the endpoint evaluated on an empty request body (every
-- default applies) with a nonzero abstract π returns a list of exactly three
-- tagged simulations.
theorem compare_runs_three_witness :
    (compare_simulations trigConst 3 solverConst emptyCompareRequest).length = 3 := by
  rw [compare_runs_three trigConst 3 solverConst emptyCompareRequest (by norm_num)]
  rfl

end DoublePendulum
